import Mathlib

/-!
Shallow embedding of `src/python/module/z5py/dataset.py` (the z5py dataset
layer): index-to-ROI resolution, the dual-dialect compression translators,
and dataset creation.  Python integers are `Int`, optional slice fields are
`Option Int`, Python numeric scalars are `ℚ`, raised exceptions are the
`PyErr` error type of an `Except`, JSON documents are the `Json` inductive,
and the filesystem is an explicit list of path entries threaded through the
creation functions.
-/

set_option autoImplicit false

namespace Z5

/-- Python exception values raised by the dataset layer. -/
inductive PyErr where
  | valueError (msg : String)
  | typeError (msg : String)
  | keyError (key : String)
  | runtimeError (msg : String)
deriving DecidableEq, Repr

deriving instance DecidableEq for Except

/-- Embeds `slice_to_begin_shape(s, size)` (dataset.py lines 11-34).
The three slice fields `s.start`, `s.stop`, `s.step` are passed separately;
`.ok (none, 0)` is the `return None, 0` empty result. -/
def slice_to_begin_shape (start stop step : Option Int) (size : Int) :
    Except PyErr (Option Int × Int) :=
  if ¬(step = none ∨ step = some 1) then
    .error (.valueError "Nontrivial steps are not supported")
  else
    let b? : Option Int :=
      match start with
      | none => some 0
      | some v =>
        if -size ≤ v ∧ v < 0 then some (size + v)
        else if v < -size ∨ size ≤ v then none
        else some v
    match b? with
    | none => .ok (none, 0)
    | some b =>
      let sh : Int :=
        match stop with
        | none => size - b
        | some w =>
          if size < w then size - b
          else if w < 0 then (size + w) - b
          else w - b
      if sh < 1 then .ok (none, 0) else .ok (some b, sh)

/-- Embeds `int_to_begin_shape(i, size)` (dataset.py lines 37-45). -/
def int_to_begin_shape (i size : Int) : Except PyErr (Int × Int) :=
  if -size < i ∧ i < 0 then .ok (i + size, 1)
  else if size ≤ i ∨ i < -size then
    .error (.valueError ("Index (" ++ toString i ++ ") out of range (0-" ++
      toString (size - 1) ++ ")"))
  else .ok (i, 1)

/-- One entry of an index expression: a numeric scalar (Python accepts any
`numbers.Number`; finite numerics are modelled by `ℚ`), a slice, an
ellipsis, or any other object (rejected with the invalid-index-type error). -/
inductive IndexItem where
  | scalar (q : ℚ)
  | slice (start stop step : Option Int)
  | ellipsis
  | other
deriving DecidableEq

/-- A user index expression: either a bare item or a tuple of items. -/
inductive IndexExpr where
  | single (item : IndexItem)
  | tuple (items : List IndexItem)
deriving DecidableEq

/-- Python `int()` on a finite numeric value: truncation toward zero. -/
def int_trunc (q : ℚ) : Int := if 0 ≤ q then ⌊q⌋ else ⌈q⌉

/-- The `type_msg` error text of `Dataset.index_to_roi` (lines 275-276). -/
def type_msg : String :=
  "Advanced selection inappropriate. Only numbers, slices (`:`), and ellipsis (`...`) are valid indices (or tuples thereof)"

/-- Embeds the `while` loop in the ellipsis branch of `index_to_roi`
(lines 302-303): keep appending the full-range pair
`(0, self.shape[len(start_shapes)])` while
`len(start_shapes) + (len(index_lst) - d - 1) < self.ndim`. -/
def ellipsis_fill (shape : List Int) (n L d : Nat)
    (acc : List (Option Int × Int)) : List (Option Int × Int) :=
  if h : acc.length + (L - d - 1) < n then
    ellipsis_fill shape n L d (acc ++ [(some 0, shape.getD acc.length 0)])
  else acc
termination_by n - acc.length
decreasing_by simp only [List.length_append, List.length_cons, List.length_nil]; omega

/-- Embeds the `for item in index_lst` loop of `index_to_roi`
(lines 290-305).  `n` is `self.ndim`, `L` is `len(index_lst)`, `acc` is
`start_shapes` and the flag is `found_ellipsis`. -/
def resolve_loop (shape : List Int) (n L : Nat) :
    List IndexItem → List (Option Int × Int) → Bool →
    Except PyErr (List (Option Int × Int))
  | [], acc, _ => .ok acc
  | item :: rest, acc, found =>
    let d := acc.length
    match item with
    | .slice st sp stp =>
      match slice_to_begin_shape st sp stp (shape.getD d 0) with
      | .error e => .error e
      | .ok bs => resolve_loop shape n L rest (acc ++ [bs]) found
    | .scalar q =>
      match int_to_begin_shape (int_trunc q) (shape.getD d 0) with
      | .error e => .error e
      | .ok (b, s) => resolve_loop shape n L rest (acc ++ [(some b, s)]) found
    | .ellipsis =>
      if found then .error (.valueError "Only one ellipsis may be used")
      else resolve_loop shape n L rest (ellipsis_fill shape n L d acc) true
    | .other => .error (.typeError type_msg)

/-- Embeds `Dataset.index_to_roi` (lines 274-308) over the dataset shape.
The final `zip(*start_shapes)` unpacking fails on an empty list in Python,
hence the emptiness guard. -/
def index_to_roi (shape : List Int) (index : IndexExpr) :
    Except PyErr (List (Option Int) × List Int) :=
  match index with
  | .single .other => .error (.typeError type_msg)
  | _ =>
    let index_lst :=
      match index with
      | .tuple items => items
      | .single it => [it]
    let n := shape.length
    if (index_lst.filter (fun it => it ≠ IndexItem.ellipsis)).length > n then
      .error (.typeError "Argument sequence too long")
    else
      let index_lst :=
        if index_lst.length < n ∧ IndexItem.ellipsis ∉ index_lst
        then index_lst ++ [IndexItem.ellipsis] else index_lst
      match resolve_loop shape n index_lst.length index_lst [] false with
      | .error e => .error e
      | .ok ss =>
        if ss.isEmpty then .error (.valueError "not enough values to unpack")
        else .ok (ss.map Prod.fst, ss.map Prod.snd)

/-- The `isinstance(i, numbers.Number)` test used by the squeeze check of
`Dataset.__getitem__` (line 319). -/
def isNumberItem : IndexItem → Bool
  | .scalar _ => true
  | _ => false

/-- Embeds the shape of the value returned by `Dataset.__getitem__`
(lines 311-323): the resolved ROI shape, except that a tuple index of
exactly `ndim` numeric entries squeezes the block to a single element
(a zero-dimensional result, modelled as the empty shape `[]`).  A bare
(non-tuple) index makes `len(index)` raise `TypeError`, which the code
catches and ignores, so no squeeze happens. -/
def getitem_result_shape (shape : List Int) (index : IndexExpr) :
    Except PyErr (List Int) :=
  match index_to_roi shape index with
  | .error e => .error e
  | .ok (_, sh) =>
    if sh.contains 0 then .ok sh
    else
      match index with
      | .tuple items =>
        if items.length = shape.length ∧ items.all isNumberItem then .ok []
        else .ok sh
      | .single _ => .ok sh

/-- JSON values, as written to and parsed from the sidecar metadata files. -/
inductive Json where
  | null
  | bool (b : Bool)
  | num (n : Int)
  | str (s : String)
  | arr (elems : List Json)
  | obj (entries : List (String × Json))

/-- Python subscript `j[key]` on a JSON value: object lookup raises
`KeyError` when the key is absent; subscripting a string with a string
raises `TypeError` (as `ctype['compression']` does on line 163). -/
def Json.subscript : Json → String → Except PyErr Json
  | .obj entries, k =>
    match entries.find? (fun kv => kv.1 == k) with
    | some kv => .ok kv.2
    | none => .error (.keyError k)
  | .str _, _ => .error (.typeError "string indices must be integers")
  | _, _ => .error (.typeError "object is not subscriptable")

/-- Python `==` between a JSON value and a string literal. -/
def Json.eqStr : Json → String → Bool
  | .str s, t => s == t
  | _, _ => false

/-- Python `key in j` for a JSON object. -/
def Json.hasKey : Json → String → Bool
  | .obj entries, k => entries.any (fun kv => kv.1 == k)
  | _, _ => false

/-- The `compression_options` dict handed to dataset creation; only the
keys `codec`, `level` and `shuffle` are ever read (via `.get` with
defaults). -/
structure CompressionOptions where
  codec : Option String := none
  level : Option Int := none
  shuffle : Option Int := none
deriving DecidableEq

/-- The `opts` dict returned by the compression readers: keys
`compression`, `level`, `shuffle`, `codec`, each present or absent. -/
structure ReadOpts where
  compression : Option String := none
  level : Option Json := none
  shuffle : Option Json := none
  codec : Option Json := none

/-- `Dataset.compressors_zarr` (line 75). -/
def compressors_zarr : List String := ["raw", "blosc", "zlib", "bzip2"]

/-- `Dataset.compressors_n5` (line 76). -/
def compressors_n5 : List String := ["raw", "gzip", "bzip2"]

/-- `Dataset.zarr_default_compressor` (line 77). -/
def zarr_default_compressor : String := "blosc"

/-- `Dataset.n5_default_compressor` (line 78). -/
def n5_default_compressor : String := "gzip"

/-- Embeds `Dataset._to_zarr_compression_options` (lines 85-103);
`.ok none` is the Python `opts = None` for raw. -/
def to_zarr_compression_options (compression : String) (o : CompressionOptions) :
    Except PyErr (Option Json) :=
  if compression = "blosc" then
    .ok (some (.obj [("id", .str "blosc"),
                     ("cname", .str (o.codec.getD "lz4")),
                     ("clevel", .num (o.level.getD 5)),
                     ("shuffle", .num (o.shuffle.getD 1))]))
  else if compression = "zlib" then
    .ok (some (.obj [("id", .str "zlib"), ("level", .num (o.level.getD 5))]))
  else if compression = "bzip2" then
    .ok (some (.obj [("id", .str "bzip2"), ("level", .num (o.level.getD 5))]))
  else if compression = "raw" then
    .ok none
  else
    .error (.runtimeError ("Compression " ++ compression ++
      " is not supported in zarr format"))

/-- Embeds `Dataset._read_zarr_compression_options` (lines 105-122) applied
to the JSON document loaded from the `.zarray` file (the code passes the
whole loaded document to the `id`-based dispatch). -/
def read_zarr_compression_options (zarr_opts : Json) : Except PyErr ReadOpts :=
  match zarr_opts with
  | .null => .ok { compression := some "raw" }
  | _ =>
    match zarr_opts.subscript "id" with
    | .error e => .error e
    | .ok idv =>
      if idv.eqStr "blosc" then
        match zarr_opts.subscript "clevel" with
        | .error e => .error e
        | .ok lv =>
          match zarr_opts.subscript "shuffle" with
          | .error e => .error e
          | .ok sv =>
            match zarr_opts.subscript "cname" with
            | .error e => .error e
            | .ok cv =>
              .ok { compression := some "blosc", level := some lv,
                    shuffle := some sv, codec := some cv }
      else if idv.eqStr "zlib" then
        match zarr_opts.subscript "level" with
        | .error e => .error e
        | .ok lv => .ok { compression := some "zlib", level := some lv }
      else if idv.eqStr "bzip2" then
        match zarr_opts.subscript "level" with
        | .error e => .error e
        | .ok lv => .ok { compression := some "bzip2", level := some lv }
      else .ok {}

/-- Embeds `Dataset._to_n5_compression_options` (lines 124-143). -/
def to_n5_compression_options (compression : String) (o : CompressionOptions) :
    Except PyErr Json :=
  if compression = "gzip" then
    .ok (.obj [("type", .str "gzip"), ("level", .num (o.level.getD 5))])
  else if compression = "bzip2" then
    .ok (.obj [("type", .str "bzip2"), ("blockSize", .num (o.level.getD 5))])
  else if compression = "raw" then
    .ok (.obj [("type", .str "raw")])
  else
    .error (.runtimeError ("Compression " ++ compression ++
      " is not supported in n5 format"))

/-- The shared `ctype` dispatch of `Dataset._read_n5_compression_options`
(lines 158-172), including the literal `ctype['compression'] == 'bzip2'`
subscription of line 163. -/
def read_n5_ctype (n5_opts ctype : Json) (new_compression : Bool) :
    Except PyErr ReadOpts :=
  if ctype.eqStr "raw" then .ok { compression := some "raw" }
  else if ctype.eqStr "gzip" then
    if new_compression then
      match n5_opts.subscript "compression" with
      | .error e => .error e
      | .ok comp =>
        match comp.subscript "level" with
        | .error e => .error e
        | .ok lv => .ok { compression := some "gzip", level := some lv }
    else .ok { compression := some "gzip", level := some (.num 5) }
  else
    match ctype.subscript "compression" with
    | .error e => .error e
    | .ok c =>
      if c.eqStr "bzip2" then
        if new_compression then
          match n5_opts.subscript "compression" with
          | .error e => .error e
          | .ok comp =>
            match comp.subscript "blockSize" with
            | .error e => .error e
            | .ok bs => .ok { compression := some "bzip2", level := some bs }
        else .ok { compression := some "bzip2", level := some (.num 5) }
      else .ok {}

/-- Embeds `Dataset._read_n5_compression_options` (lines 145-172) applied
to the JSON document loaded from `attributes.json`: a top-level
`compressionType` key selects the legacy schema, otherwise the nested
`compression` object is used. -/
def read_n5_compression_options (n5_opts : Json) : Except PyErr ReadOpts :=
  if n5_opts.hasKey "compressionType" then
    match n5_opts.subscript "compressionType" with
    | .error e => .error e
    | .ok ctype => read_n5_ctype n5_opts ctype false
  else
    match n5_opts.subscript "compression" with
    | .error e => .error e
    | .ok comp =>
      match comp.subscript "type" with
      | .error e => .error e
      | .ok ctype => read_n5_ctype n5_opts ctype true

/-- The numpy dtypes appearing in the dataset layer: the ten entries of the
dtype tables plus a complex dtype outside both tables. -/
inductive Dtype where
  | uint8 | uint16 | uint32 | uint64
  | int8 | int16 | int32 | int64
  | float32 | float64
  | complex64
deriving DecidableEq

/-- Dtype rendering used in the creation error messages. -/
def dtype_name : Dtype → String
  | .uint8 => "uint8" | .uint16 => "uint16" | .uint32 => "uint32"
  | .uint64 => "uint64" | .int8 => "int8" | .int16 => "int16"
  | .int32 => "int32" | .int64 => "int64" | .float32 => "float32"
  | .float64 => "float64" | .complex64 => "complex64"

/-- `Dataset.dtype_dict` (lines 50-59): `none` models absence from the dict. -/
def dtype_dict : Dtype → Option String
  | .uint8 => some "uint8" | .uint16 => some "uint16"
  | .uint32 => some "uint32" | .uint64 => some "uint64"
  | .int8 => some "int8" | .int16 => some "int16"
  | .int32 => some "int32" | .int64 => some "int64"
  | .float32 => some "float32" | .float64 => some "float64"
  | .complex64 => none

/-- `Dataset.zarr_dtype_dict` (lines 61-70). -/
def zarr_dtype_dict : Dtype → Option String
  | .uint8 => some "<u1" | .uint16 => some "<u2"
  | .uint32 => some "<u4" | .uint64 => some "<u8"
  | .int8 => some "<i1" | .int16 => some "<i2"
  | .int32 => some "<i4" | .int64 => some "<i8"
  | .float32 => some "<f4" | .float64 => some "<f8"
  | .complex64 => none

/-- A filesystem entry: a directory (from `os.mkdir`) or a JSON file
(from `json.dump`). -/
inductive FSEntry where
  | dir
  | file (content : Json)

/-- The filesystem state: a list of `(path, entry)` pairs. -/
abbrev FS := List (String × FSEntry)

/-- `os.path.exists(path)`. -/
def pathExists (fs : FS) (path : String) : Bool :=
  fs.any (fun e => e.1 == path)

/-- The JSON content of the file at `path`, when one exists. -/
def fileContent (fs : FS) (path : String) : Option Json :=
  match fs.find? (fun e => e.1 == path) with
  | some (_, .file j) => some j
  | _ => none

/-- Embeds `Dataset._create_dataset_zarr` (lines 174-186): `os.mkdir`
first, then the params dict (whose construction can still raise), then the
`.zarray` dump. -/
def create_dataset_zarr (fs : FS) (path : String) (dtype : Dtype)
    (shape chunks : List Int) (compression : String) (o : CompressionOptions)
    (fill_value : Json) : FS × Except PyErr Unit :=
  let fs := fs ++ [(path, FSEntry.dir)]
  match zarr_dtype_dict dtype with
  | none => (fs, .error (.keyError "dtype"))
  | some ds =>
    match to_zarr_compression_options compression o with
    | .error e => (fs, .error e)
    | .ok copts =>
      let params := Json.obj
        [("dtype", .str ds),
         ("shape", .arr (shape.map Json.num)),
         ("chunks", .arr (chunks.map Json.num)),
         ("fill_value", fill_value),
         ("compressor", match copts with | none => Json.null | some j => j)]
      (fs ++ [(path ++ "/.zarray", FSEntry.file params)], .ok ())

/-- Embeds `Dataset._create_dataset_n5` (lines 188-198): axis order of
`shape` and `chunks` is reversed before persisting. -/
def create_dataset_n5 (fs : FS) (path : String) (dtype : Dtype)
    (shape chunks : List Int) (compression : String) (o : CompressionOptions) :
    FS × Except PyErr Unit :=
  let fs := fs ++ [(path, FSEntry.dir)]
  match dtype_dict dtype with
  | none => (fs, .error (.keyError "dtype"))
  | some ds =>
    match to_n5_compression_options compression o with
    | .error e => (fs, .error e)
    | .ok copts =>
      let params := Json.obj
        [("dataType", .str ds),
         ("dimensions", .arr (shape.reverse.map Json.num)),
         ("blockSize", .arr (chunks.reverse.map Json.num)),
         ("compression", copts)]
      (fs ++ [(path ++ "/attributes.json", FSEntry.file params)], .ok ())

/-- The compression reassignment of `Dataset.create_dataset`
(lines 207-210): an algorithm outside the dialect's supported list is
silently replaced by the dialect default. -/
def substituted_compression (is_zarr : Bool) (compression : String) : String :=
  if is_zarr = true ∧ compression ∉ compressors_zarr then
    zarr_default_compressor
  else if is_zarr = false ∧ compression ∉ compressors_n5 then
    n5_default_compressor
  else compression

/-- Embeds `Dataset.create_dataset` (lines 200-224): existence check,
silent compression default substitution, dialect-specific dtype check, then
delegation to the dialect creation helper. -/
def create_dataset (fs : FS) (path : String) (dtype : Dtype)
    (shape chunks : List Int) (is_zarr : Bool) (compression : String)
    (o : CompressionOptions) (fill_value : Json) : FS × Except PyErr Unit :=
  if pathExists fs path then
    (fs, .error (.runtimeError "Cannot create existing dataset"))
  else
    let compression := substituted_compression is_zarr compression
    if is_zarr then
      match zarr_dtype_dict dtype with
      | none => (fs, .error (.valueError ("Invalid data type " ++
          dtype_name dtype ++ " for zarr dataset")))
      | some _ => create_dataset_zarr fs path dtype shape chunks compression o fill_value
    else
      match dtype_dict dtype with
      | none => (fs, .error (.valueError ("Invalid data type " ++
          dtype_name dtype ++ " for N5 dataset")))
      | some _ => create_dataset_n5 fs path dtype shape chunks compression o

/-- Python-style normalization of one slice endpoint against a dimension
size: a negative value counts from the end; `dflt` is the value of an
absent endpoint (0 for start, `size` for stop).  Used only to state what
"a slice lying entirely outside the dimension" means. -/
def normIdx (size dflt : Int) : Option Int → Int
  | none => dflt
  | some v => if v < 0 then size + v else v

/-- Formalizes the claim phrase "a slice lying entirely outside
`[0, size)`": the half-open interval denoted by the normalized endpoints
does not meet `[0, size)`. -/
def slice_outside (start stop : Option Int) (size : Int) : Prop :=
  normIdx size size stop ≤ 0 ∨ size ≤ normIdx size 0 start ∨
    normIdx size size stop ≤ normIdx size 0 start

/-- The `(begin, shape)` pairs appended by an ellipsis (or produced by a
full-range slice) for `k` consecutive dimensions starting at dimension
`j`. -/
def fullEntries (shape : List Int) : Nat → Nat → List (Option Int × Int)
  | _, 0 => []
  | j, k + 1 => (some 0, shape.getD j 0) :: fullEntries shape (j + 1) k

/-- Claim C1 is false on the code: the compression round-trip breaks.
For a Zarr dataset created with `raw` compression (the same holds for
every Zarr algorithm), reading the compression options back raises
`KeyError: id`, because `_read_zarr_compression_options` inspects the
whole `.zarray` document where the writer stored the compressor under the
`compressor` key.  For an N5 dataset created with `bzip2`, reading back
raises `TypeError` from the `ctype['compression']` subscription of a
string on line 163. -/
theorem c1_compression_roundtrip_broken :
    (fileContent (create_dataset [] "d" .uint8 [4] [2] true "raw" {} .null).1
        "d/.zarray").map read_zarr_compression_options
      = some (.error (.keyError "id"))
    ∧ (fileContent (create_dataset [] "d" .uint8 [4] [2] false "bzip2" {} .null).1
        "d/attributes.json").map read_n5_compression_options
      = some (.error (.typeError "string indices must be integers")) :=
  ⟨rfl, rfl⟩

/-- Claim C2 is false on the code for the bzip2 case: a legacy document
`left-brace "compressionType": "gzip" right-brace` does decode to gzip with
the fixed level 5 (also with a stray `level` field present), but the legacy
document with `compressionType` equal to `bzip2` raises `TypeError`
(line 163 subscripts the string `bzip2`), instead of yielding bzip2 with
level 5 as the claim requires. -/
theorem c2_legacy_n5_decode :
    read_n5_compression_options (.obj [("compressionType", .str "gzip")])
      = .ok { compression := some "gzip", level := some (.num 5) }
    ∧ read_n5_compression_options
        (.obj [("compressionType", .str "gzip"), ("level", .num 9)])
      = .ok { compression := some "gzip", level := some (.num 5) }
    ∧ read_n5_compression_options (.obj [("compressionType", .str "bzip2")])
      = .error (.typeError "string indices must be integers") :=
  ⟨rfl, rfl, rfl⟩

/-- Claim C3 is false on the code: the scalar index `-3` on a dimension of
size 3 (`i = -size`) is accepted by `int_to_begin_shape` (the range check
uses the strict bound `-size < i`, unlike the inclusive `-size <= start` of
the slice path) and resolves to the ROI with begin `-3`, a negative begin
that violates the claimed invariant `begin >= 0` and
`begin + shape <= size`. -/
theorem c3_negative_begin_roi :
    index_to_roi [3] (.single (.scalar (-3))) = .ok ([some (-3)], [1])
    ∧ ¬(0 : Int) ≤ -3 :=
  ⟨rfl, by decide⟩

/-- Claim C5 is false on the code at `N = 1`: resolving the scalar index
`-1` on a dimension of size 1 yields begin `-1` (since `-size < i` fails
for `i = -size`), while resolving `N - 1 = 0` yields begin `0`, so the two
resolutions differ. -/
theorem c5_neg_one_not_normalized :
    int_to_begin_shape (-1) 1 = .ok (-1, 1)
    ∧ int_to_begin_shape 0 1 = .ok (0, 1)
    ∧ (Except.ok ((-1 : Int), (1 : Int)) : Except PyErr (Int × Int)) ≠ .ok (0, 1) :=
  ⟨rfl, rfl, by decide⟩

/-- Claim C9 is false on the code as stated: a bare (non-tuple) scalar
index on a one-dimensional dataset is an index expression with exactly
`ndim` entries, all scalars, yet the result is the 1-element block of the
ROI shape, not the squeezed zero-dimensional element — `len(index)` raises
`TypeError` for a non-tuple and the squeeze is skipped. -/
theorem c9_bare_scalar_not_squeezed :
    getitem_result_shape [10] (.single (.scalar 5)) = .ok [1]
    ∧ getitem_result_shape [10] (.single (.scalar 5)) ≠ .ok [] :=
  ⟨rfl, by decide⟩

/-- Claim C4: on a dimension of size at least 1 with unit (or absent)
step, a slice lying entirely outside the dimension resolves to the empty
result `(None, 0)` and never raises, while a scalar index outside
`[-size, size)` always raises the out-of-range `ValueError` and never
resolves to a ROI. -/
theorem c4_outside_policy (start stop step : Option Int) (size i : Int)
    (hsz : 1 ≤ size) (hstep : step = none ∨ step = some 1) :
    (slice_outside start stop size →
      slice_to_begin_shape start stop step size = .ok (none, 0))
    ∧ (i < -size ∨ size ≤ i →
      int_to_begin_shape i size = .error (.valueError ("Index (" ++ toString i ++
        ") out of range (0-" ++ toString (size - 1) ++ ")"))) := by
  constructor
  · intro hout
    simp only [slice_outside] at hout
    rcases start with _ | v <;> rcases stop with _ | w <;>
      simp only [normIdx] at hout <;>
      simp only [slice_to_begin_shape, if_neg (not_not_intro hstep)] <;>
      split_ifs at hout ⊢ <;>
      first
        | rfl
        | (exfalso; rcases hout with h | h | h <;> omega)
        | (dsimp only; split_ifs <;>
            first
              | rfl
              | (exfalso; rcases hout with h | h | h <;> omega))
  · intro hout
    simp only [int_to_begin_shape]
    rw [if_neg (by omega), if_pos (by omega)]

/-- Witness for `c4_outside_policy`: the slice `10:` on a dimension of
size 5 is entirely outside and resolves empty; the scalar 7 on the same
dimension raises. -/
theorem c4_outside_policy_witness :
    (1 : Int) ≤ 5 ∧ slice_outside (some 10) none 5
    ∧ slice_to_begin_shape (some 10) none none 5 = .ok (none, 0)
    ∧ int_to_begin_shape 7 5 = .error (.valueError "Index (7) out of range (0-4)") := by
  have hout : slice_outside (some 10) none 5 := by
    simp only [slice_outside, normIdx]; decide
  refine ⟨by decide, hout, ?_, ?_⟩
  · exact (c4_outside_policy (some 10) none none 5 7 (by decide) (Or.inl rfl)).1 hout
  · exact (c4_outside_policy (some 10) none none 5 7 (by decide) (Or.inl rfl)).2
      (by decide)

/-- Claim C7: creation with a compression algorithm outside the target
dialect's supported set behaves exactly as creation with the dialect's
default (`blosc` for Zarr, `gzip` for N5), and in particular succeeds on a
fresh path with a valid dtype rather than erroring. -/
theorem c7_default_substitution (fs : FS) (path : String) (dtype : Dtype)
    (shape chunks : List Int) (o : CompressionOptions) (fv : Json)
    (czarr cn5 : String)
    (hz : czarr ∉ compressors_zarr) (hn : cn5 ∉ compressors_n5) :
    create_dataset fs path dtype shape chunks true czarr o fv
      = create_dataset fs path dtype shape chunks true "blosc" o fv
    ∧ create_dataset fs path dtype shape chunks false cn5 o fv
      = create_dataset fs path dtype shape chunks false "gzip" o fv
    ∧ (pathExists fs path = false → zarr_dtype_dict dtype ≠ none →
        (create_dataset fs path dtype shape chunks true czarr o fv).2 = .ok ())
    ∧ (pathExists fs path = false → dtype_dict dtype ≠ none →
        (create_dataset fs path dtype shape chunks false cn5 o fv).2 = .ok ()) := by
  have hsubz : substituted_compression true czarr = "blosc" := by
    rw [substituted_compression, if_pos ⟨rfl, hz⟩]; rfl
  have hsubz2 : substituted_compression true "blosc" = "blosc" := by
    rw [substituted_compression, if_neg (by intro h; exact h.2 (by decide)),
      if_neg (by intro h; cases h.1)]
  have hsubn : substituted_compression false cn5 = "gzip" := by
    rw [substituted_compression, if_neg (by intro h; cases h.1), if_pos ⟨rfl, hn⟩]; rfl
  have hsubn2 : substituted_compression false "gzip" = "gzip" := by
    rw [substituted_compression, if_neg (by intro h; cases h.1),
      if_neg (by intro h; exact h.2 (by decide))]
  refine ⟨?_, ?_, ?_, ?_⟩
  · simp only [create_dataset, hsubz, hsubz2]
  · simp only [create_dataset, hsubn, hsubn2]
  · intro hp hd
    rcases h : zarr_dtype_dict dtype with _ | ds
    · exact absurd h hd
    · simp only [create_dataset, hsubz]
      rw [if_neg (by simp [hp])]
      simp [h, create_dataset_zarr, to_zarr_compression_options]
  · intro hp hd
    rcases h : dtype_dict dtype with _ | ds
    · exact absurd h hd
    · simp only [create_dataset, hsubn]
      rw [if_neg (by simp [hp])]
      simp [h, create_dataset_n5, to_n5_compression_options]

/-- Witness for `c7_default_substitution`: requesting `lz4raw` on a fresh
Zarr dataset behaves as requesting `blosc` and succeeds; the same request
on a fresh N5 dataset behaves as requesting `gzip` and succeeds. -/
theorem c7_default_substitution_witness :
    ("lz4raw" ∉ compressors_zarr) ∧ ("lz4raw" ∉ compressors_n5)
    ∧ pathExists [] "p" = false
    ∧ create_dataset [] "p" .uint8 [4] [2] true "lz4raw" {} .null
        = create_dataset [] "p" .uint8 [4] [2] true "blosc" {} .null
    ∧ (create_dataset [] "p" .uint8 [4] [2] true "lz4raw" {} .null).2 = .ok ()
    ∧ (create_dataset [] "p" .uint8 [4] [2] false "lz4raw" {} .null).2 = .ok () := by
  have h := c7_default_substitution [] "p" .uint8 [4] [2] {} .null "lz4raw" "lz4raw"
    (by decide) (by decide)
  exact ⟨by decide, by decide, rfl, h.1, h.2.2.1 rfl (by decide), h.2.2.2 rfl (by decide)⟩

/-- Claim C8: creation on an already-existing path fails with the
already-exists error, and creation with a dtype outside the target
dialect's table fails with the invalid-data-type error; in both cases the
returned filesystem state is exactly the input state — nothing was
written. -/
theorem c8_create_failures (fs : FS) (path : String) (dtype : Dtype)
    (shape chunks : List Int) (is_zarr : Bool) (compression : String)
    (o : CompressionOptions) (fv : Json) :
    (pathExists fs path = true →
      create_dataset fs path dtype shape chunks is_zarr compression o fv
        = (fs, .error (.runtimeError "Cannot create existing dataset")))
    ∧ (pathExists fs path = false → is_zarr = true → zarr_dtype_dict dtype = none →
      create_dataset fs path dtype shape chunks is_zarr compression o fv
        = (fs, .error (.valueError ("Invalid data type " ++ dtype_name dtype ++
            " for zarr dataset"))))
    ∧ (pathExists fs path = false → is_zarr = false → dtype_dict dtype = none →
      create_dataset fs path dtype shape chunks is_zarr compression o fv
        = (fs, .error (.valueError ("Invalid data type " ++ dtype_name dtype ++
            " for N5 dataset")))) := by
  refine ⟨?_, ?_, ?_⟩
  · intro hp
    simp only [create_dataset, hp, if_true]
  · intro hp hzarr hd
    subst hzarr
    simp only [create_dataset, hd]
    rw [if_neg (by simp [hp])]
    simp
  · intro hp hzarr hd
    subst hzarr
    simp only [create_dataset, hd]
    rw [if_neg (by simp [hp])]
    simp

/-- Witness for `c8_create_failures`: creating at the existing path `p`
fails with the already-exists error and leaves the filesystem unchanged;
creating an N5 dataset with the complex dtype on a fresh path fails with
the invalid-data-type error and leaves the filesystem unchanged. -/
theorem c8_create_failures_witness :
    pathExists [("p", FSEntry.dir)] "p" = true
    ∧ create_dataset [("p", FSEntry.dir)] "p" .uint8 [4] [2] true "raw" {} .null
        = ([("p", FSEntry.dir)], .error (.runtimeError "Cannot create existing dataset"))
    ∧ pathExists [] "q" = false
    ∧ dtype_dict .complex64 = none
    ∧ create_dataset [] "q" .complex64 [4] [2] false "gzip" {} .null
        = ([], .error (.valueError "Invalid data type complex64 for N5 dataset")) := by
  refine ⟨rfl, ?_, rfl, rfl, ?_⟩
  · exact (c8_create_failures [("p", FSEntry.dir)] "p" .uint8 [4] [2] true "raw" {} .null).1 rfl
  · exact (c8_create_failures [] "q" .complex64 [4] [2] false "gzip" {} .null).2.2 rfl rfl rfl

/-- A full-range slice on a positive dimension resolves to the whole
dimension. -/
theorem full_slice_resolves (s : Int) (h : 1 ≤ s) :
    slice_to_begin_shape none none none s = .ok (some 0, s) := by
  simp only [slice_to_begin_shape]
  rw [if_neg (by simp)]
  rw [if_neg (by omega)]
  norm_num

/-- Closed form of the ellipsis `while` loop: it appends exactly the
full-range entries needed to reach the target count. -/
theorem ellipsis_fill_spec (shape : List Int) (n L d : Nat) :
    ∀ (k : Nat) (acc : List (Option Int × Int)),
      (n - (L - d - 1)) - acc.length = k →
      ellipsis_fill shape n L d acc = acc ++ fullEntries shape acc.length k := by
  intro k
  induction k with
  | zero =>
    intro acc h
    rw [ellipsis_fill, dif_neg (by omega)]
    simp [fullEntries]
  | succ k ih =>
    intro acc h
    rw [ellipsis_fill, dif_pos (by omega)]
    rw [ih (acc ++ [(some 0, shape.getD acc.length 0)]) (by simp; omega)]
    simp [fullEntries]

/-- Processing `k` full-range slices appends exactly the `k` full-range
entries, provided those dimensions exist and are positive. -/
theorem resolve_full_slices (shape : List Int) (hs : ∀ s ∈ shape, 1 ≤ s)
    (n L : Nat) :
    ∀ (k : Nat) (rest : List IndexItem) (acc : List (Option Int × Int)) (f : Bool),
      acc.length + k ≤ shape.length →
      resolve_loop shape n L
          (List.replicate k (IndexItem.slice none none none) ++ rest) acc f
        = resolve_loop shape n L rest (acc ++ fullEntries shape acc.length k) f := by
  intro k
  induction k with
  | zero =>
    intro rest acc f _
    simp [fullEntries]
  | succ k ih =>
    intro rest acc f hb
    have hlt : acc.length < shape.length := by omega
    have hsz : 1 ≤ shape.getD acc.length 0 := by
      rw [List.getD_eq_getElem _ _ hlt]
      exact hs _ (List.getElem_mem _)
    rw [List.replicate_succ, List.cons_append]
    simp only [resolve_loop]
    rw [full_slice_resolves _ hsz]
    dsimp only
    rw [ih rest (acc ++ [(some 0, shape.getD acc.length 0)]) f (by simp; omega)]
    simp [fullEntries]

/-- On an ellipsis-free item list, `resolve_loop` ignores both the list
length parameter and the ellipsis flag. -/
theorem resolve_loop_irrel (shape : List Int) (n : Nat) :
    ∀ (items : List IndexItem), IndexItem.ellipsis ∉ items →
    ∀ (acc : List (Option Int × Int)) (L₁ L₂ : Nat) (f₁ f₂ : Bool),
      resolve_loop shape n L₁ items acc f₁ = resolve_loop shape n L₂ items acc f₂ := by
  intro items
  induction items with
  | nil => intro _ acc L₁ L₂ f₁ f₂; rfl
  | cons it rest ih =>
    intro hmem acc L₁ L₂ f₁ f₂
    have h2 : IndexItem.ellipsis ∉ rest := fun hr => hmem (List.mem_cons_of_mem _ hr)
    cases it with
    | scalar q =>
      simp only [resolve_loop]
      rcases hx : int_to_begin_shape (int_trunc q) (shape.getD acc.length 0) with e | ⟨b, s⟩ <;>
        simp only [hx]
      exact ih h2 _ _ _ _ _
    | slice st sp stp =>
      simp only [resolve_loop]
      rcases hx : slice_to_begin_shape st sp stp (shape.getD acc.length 0) with e | bs <;>
        simp only [hx]
      exact ih h2 _ _ _ _ _
    | ellipsis => exact absurd (List.mem_cons_self _ _) hmem
    | other => rfl

/-- Processing a common ellipsis-free prefix preserves any continuation
equality that holds at the accumulator length reached after the prefix. -/
theorem resolve_loop_congr (shape : List Int) (n : Nat) :
    ∀ (itemsA : List IndexItem), IndexItem.ellipsis ∉ itemsA →
    ∀ (acc : List (Option Int × Int)) (L₁ L₂ : Nat) (xs ys : List IndexItem)
      (f₁ f₂ : Bool),
      (∀ acc2 : List (Option Int × Int),
        acc2.length = acc.length + itemsA.length →
        resolve_loop shape n L₁ xs acc2 f₁ = resolve_loop shape n L₂ ys acc2 f₂) →
      resolve_loop shape n L₁ (itemsA ++ xs) acc f₁
        = resolve_loop shape n L₂ (itemsA ++ ys) acc f₂ := by
  intro itemsA
  induction itemsA with
  | nil =>
    intro _ acc L₁ L₂ xs ys f₁ f₂ hc
    exact hc acc (by simp)
  | cons it rest ih =>
    intro hmem acc L₁ L₂ xs ys f₁ f₂ hc
    have h2 : IndexItem.ellipsis ∉ rest := fun hr => hmem (List.mem_cons_of_mem _ hr)
    cases it with
    | scalar q =>
      simp only [List.cons_append, resolve_loop]
      rcases hx : int_to_begin_shape (int_trunc q) (shape.getD acc.length 0) with e | ⟨b, s⟩ <;>
        simp only [hx]
      exact ih h2 _ _ _ _ _ _ _
        (fun acc2 hl => hc acc2 (by simp only [List.length_append, List.length_cons, List.length_nil] at hl ⊢; omega))
    | slice st sp stp =>
      simp only [List.cons_append, resolve_loop]
      rcases hx : slice_to_begin_shape st sp stp (shape.getD acc.length 0) with e | bs <;>
        simp only [hx]
      exact ih h2 _ _ _ _ _ _ _
        (fun acc2 hl => hc acc2 (by simp only [List.length_append, List.length_cons, List.length_nil] at hl ⊢; omega))
    | ellipsis => exact absurd (List.mem_cons_self _ _) hmem
    | other => simp only [List.cons_append, resolve_loop]

/-- Reduction of `index_to_roi` on a tuple when neither the
too-long branch nor the implicit-ellipsis append fires. -/
theorem index_to_roi_tuple_reduce (shape : List Int) (items : List IndexItem)
    (h1 : ¬ (items.filter (fun it => it ≠ IndexItem.ellipsis)).length > shape.length)
    (h2 : ¬ (items.length < shape.length ∧ IndexItem.ellipsis ∉ items)) :
    index_to_roi shape (.tuple items) =
      match resolve_loop shape shape.length items.length items [] false with
      | .error e => .error e
      | .ok ss =>
        if ss.isEmpty then .error (.valueError "not enough values to unpack")
        else .ok (ss.map Prod.fst, ss.map Prod.snd) := by
  simp only [index_to_roi]
  rw [if_neg h1, if_neg h2]

/-- Reduction of `index_to_roi` on a tuple when the implicit ellipsis is
appended (fewer entries than `ndim`, no ellipsis present). -/
theorem index_to_roi_tuple_append (shape : List Int) (items : List IndexItem)
    (h1 : ¬ (items.filter (fun it => it ≠ IndexItem.ellipsis)).length > shape.length)
    (h2 : items.length < shape.length ∧ IndexItem.ellipsis ∉ items) :
    index_to_roi shape (.tuple items) =
      match resolve_loop shape shape.length (items ++ [IndexItem.ellipsis]).length
          (items ++ [IndexItem.ellipsis]) [] false with
      | .error e => .error e
      | .ok ss =>
        if ss.isEmpty then .error (.valueError "not enough values to unpack")
        else .ok (ss.map Prod.fst, ss.map Prod.snd) := by
  simp only [index_to_roi]
  rw [if_neg h1, if_pos h2]

/-- An ellipsis-free list is unchanged by the non-ellipsis filter of
`index_to_roi`. -/
theorem filter_ne_ellipsis (l : List IndexItem) (h : IndexItem.ellipsis ∉ l) :
    l.filter (fun it => it ≠ IndexItem.ellipsis) = l := by
  refine List.filter_eq_self.mpr ?_
  intro a ha
  simp only [ne_eq, decide_not, Bool.not_eq_eq_eq_not, Bool.not_true,
    decide_eq_false_iff_not]
  intro hae
  exact h (hae ▸ ha)

/-- Claim C6: over a shape with positive entries, an explicit full-range
index sequence (one full slice per dimension not otherwise indexed) and
its ellipsis-shortened equivalent resolve identically, for any placement
of the single ellipsis between an ellipsis-free prefix and suffix; and a
sequence shorter than `ndim` with no ellipsis resolves exactly as the same
sequence with an ellipsis appended. -/
theorem c6_ellipsis_equiv (shape : List Int) (pre post : List IndexItem)
    (hs : ∀ s ∈ shape, 1 ≤ s)
    (hpre : IndexItem.ellipsis ∉ pre) (hpost : IndexItem.ellipsis ∉ post)
    (hlen : pre.length + post.length ≤ shape.length) :
    index_to_roi shape (.tuple (pre ++
        List.replicate (shape.length - pre.length - post.length)
          (IndexItem.slice none none none) ++ post))
      = index_to_roi shape (.tuple (pre ++ IndexItem.ellipsis :: post))
    ∧ (pre.length + post.length < shape.length →
        index_to_roi shape (.tuple (pre ++ post))
          = index_to_roi shape (.tuple ((pre ++ post) ++ [IndexItem.ellipsis]))) := by
  have hfull_ne : ∀ k, IndexItem.ellipsis ∉
      List.replicate k (IndexItem.slice none none none) := by
    intro k hmem
    cases List.eq_of_mem_replicate hmem
  have hne : IndexItem.ellipsis ∉ pre ++ post := by
    intro hmem
    rcases List.mem_append.mp hmem with hmem | hmem
    · exact hpre hmem
    · exact hpost hmem
  constructor
  · -- the explicit and the ellipsis-shortened sequences resolve identically
    have hL1ne : IndexItem.ellipsis ∉ pre ++
        List.replicate (shape.length - pre.length - post.length)
          (IndexItem.slice none none none) ++ post := by
      intro hmem
      rcases List.mem_append.mp hmem with hmem | hmem
      · rcases List.mem_append.mp hmem with hmem | hmem
        · exact hpre hmem
        · exact hfull_ne _ hmem
      · exact hpost hmem
    have hmem2 : IndexItem.ellipsis ∈ pre ++ IndexItem.ellipsis :: post :=
      List.mem_append.mpr (Or.inr (List.mem_cons_self _ _))
    have hres : resolve_loop shape shape.length
        (pre ++
          List.replicate (shape.length - pre.length - post.length)
            (IndexItem.slice none none none) ++ post).length
        (pre ++
          List.replicate (shape.length - pre.length - post.length)
            (IndexItem.slice none none none) ++ post) [] false
        = resolve_loop shape shape.length
          (pre ++ IndexItem.ellipsis :: post).length
          (pre ++ IndexItem.ellipsis :: post) [] false := by
      rw [List.append_assoc]
      refine resolve_loop_congr shape shape.length pre hpre [] _ _ _ _ _ _ ?_
      intro acc2 hl
      have hl2 : acc2.length = pre.length := by simpa using hl
      rw [resolve_full_slices shape hs _ _ _ post acc2 false (by omega)]
      simp only [resolve_loop]
      rw [if_neg Bool.false_ne_true]
      rw [ellipsis_fill_spec shape shape.length
        (pre ++ IndexItem.ellipsis :: post).length acc2.length _ acc2 rfl]
      rw [hl2]
      have hk : (shape.length -
          ((pre ++ IndexItem.ellipsis :: post).length - pre.length - 1)) - pre.length
          = shape.length - pre.length - post.length := by
        simp only [List.length_append, List.length_cons]
        omega
      rw [hk]
      exact resolve_loop_irrel shape shape.length post hpost _ _ _ _ _
    rw [index_to_roi_tuple_reduce shape _
      (by
        rw [filter_ne_ellipsis _ hL1ne]
        simp only [List.length_append, List.length_replicate]
        omega)
      (by
        intro hc
        have := hc.1
        simp only [List.length_append, List.length_replicate] at this
        omega)]
    rw [index_to_roi_tuple_reduce shape _
      (by
        rw [List.filter_append, filter_ne_ellipsis _ hpre, List.filter_cons_of_neg,
          filter_ne_ellipsis _ hpost]
        · simp only [List.length_append]
          omega
        · simp)
      (fun hc => hc.2 hmem2)]
    rw [hres]
  · -- a short ellipsis-free sequence resolves as if an ellipsis were appended
    intro hshort
    have hmem3 : IndexItem.ellipsis ∈ (pre ++ post) ++ [IndexItem.ellipsis] :=
      List.mem_append.mpr (Or.inr (List.mem_cons_self _ _))
    rw [index_to_roi_tuple_append shape (pre ++ post)
      (by
        rw [filter_ne_ellipsis _ hne]
        simp only [List.length_append]
        omega)
      (by
        refine ⟨?_, hne⟩
        simp only [List.length_append]
        omega)]
    rw [index_to_roi_tuple_reduce shape ((pre ++ post) ++ [IndexItem.ellipsis])
      (by
        rw [List.filter_append, filter_ne_ellipsis _ hne, List.filter_cons_of_neg]
        · simp only [List.length_append, List.filter_nil, List.length_nil]
          omega
        · simp)
      (fun hc => hc.2 hmem3)]

/-- Witness for `c6_ellipsis_equiv` at shape `[2, 3, 4]` with prefix
`[0]` and suffix `[:]`: the explicit form `(0, :, :)` and the ellipsis
form `(0, ..., :)` resolve identically, and the short form `(0, :)`
resolves as `(0, :, ...)`. -/
theorem c6_ellipsis_equiv_witness :
    (∀ s ∈ [(2 : Int), 3, 4], 1 ≤ s)
    ∧ index_to_roi [2, 3, 4] (.tuple [.scalar 0,
          .slice none none none, .slice none none none])
      = index_to_roi [2, 3, 4] (.tuple [.scalar 0, .ellipsis, .slice none none none])
    ∧ index_to_roi [2, 3, 4] (.tuple [.scalar 0, .slice none none none])
      = index_to_roi [2, 3, 4] (.tuple [.scalar 0, .slice none none none, .ellipsis]) := by
  have h := c6_ellipsis_equiv [2, 3, 4] [.scalar 0] [.slice none none none]
    (by decide) (by decide) (by decide) (by norm_num)
  have h2 := c6_ellipsis_equiv [2, 3, 4] [.scalar 0, .slice none none none] []
    (by decide) (by decide) (by decide) (by norm_num)
  refine ⟨by decide, ?_, ?_⟩
  · have := h.1
    simpa using this
  · have := h2.2 (by norm_num)
    simpa using this

/-- `int_to_begin_shape` always reports extent 1 on success. -/
theorem int_to_begin_shape_ok_snd (i size : Int) (p : Int × Int)
    (h : int_to_begin_shape i size = .ok p) : p.2 = 1 := by
  simp only [int_to_begin_shape] at h
  split_ifs at h <;> (cases h; rfl)

/-- `int_to_begin_shape` only ever raises the out-of-range `ValueError`. -/
theorem int_to_begin_shape_error (i size : Int) (e : PyErr)
    (h : int_to_begin_shape i size = .error e) : ∃ m, e = .valueError m := by
  simp only [int_to_begin_shape] at h
  split_ifs at h
  cases h
  exact ⟨_, rfl⟩

/-- Over an all-scalar item list, every entry the loop appends has
extent 1. -/
theorem resolve_scalars_snd (shape : List Int) (n L : Nat) :
    ∀ (items : List IndexItem) (acc : List (Option Int × Int)) (f : Bool)
      (r : List (Option Int × Int)),
      items.all isNumberItem = true →
      resolve_loop shape n L items acc f = .ok r →
      ∀ x ∈ r, x ∈ acc ∨ x.2 = 1 := by
  intro items
  induction items with
  | nil =>
    intro acc f r _ h x hx
    cases h
    exact Or.inl hx
  | cons it rest ih =>
    intro acc f r hall h x hx
    cases it with
    | scalar q =>
      have hall2 : rest.all isNumberItem = true := by
        simp only [List.all_cons, Bool.and_eq_true] at hall
        exact hall.2
      simp only [resolve_loop] at h
      rcases hi : int_to_begin_shape (int_trunc q) (shape.getD acc.length 0) with e | ⟨b, s⟩ <;>
        rw [hi] at h
      · exact Except.noConfusion h
      · have hs1 : s = 1 := int_to_begin_shape_ok_snd _ _ _ hi
        rcases ih (acc ++ [(some b, s)]) f r hall2 h x hx with hmem | h1
        · rcases List.mem_append.mp hmem with ha | hb
          · exact Or.inl ha
          · right
            rw [List.mem_singleton] at hb
            rw [hb, hs1]
        · exact Or.inr h1
    | slice st sp stp => simp [List.all_cons, isNumberItem] at hall
    | ellipsis => simp [List.all_cons, isNumberItem] at hall
    | other => simp [List.all_cons, isNumberItem] at hall

/-- Amended claim C9: the squeeze applies exactly to tuple index
expressions.  A tuple of exactly `ndim` numeric entries that reads
successfully returns the squeezed zero-dimensional result; a tuple that is
not of that form returns the full block of the resolved ROI shape; and a
bare (non-tuple) index always returns the full block of the resolved ROI
shape — it is never squeezed, even when it is a single scalar on a
one-dimensional dataset. -/
theorem c9_squeeze_amended :
    (∀ (shape : List Int) (items : List IndexItem) (r : List Int),
      items.length = shape.length → items.all isNumberItem = true →
      getitem_result_shape shape (.tuple items) = .ok r → r = [])
    ∧ (∀ (shape : List Int) (items : List IndexItem) (bs : List (Option Int))
        (sh : List Int),
      index_to_roi shape (.tuple items) = .ok (bs, sh) →
      ¬(items.length = shape.length ∧ items.all isNumberItem = true) →
      getitem_result_shape shape (.tuple items) = .ok sh)
    ∧ (∀ (shape : List Int) (it : IndexItem) (bs : List (Option Int))
        (sh : List Int),
      index_to_roi shape (.single it) = .ok (bs, sh) →
      getitem_result_shape shape (.single it) = .ok sh) := by
  refine ⟨?_, ?_, ?_⟩
  · intro shape items r hlen hall h
    simp only [getitem_result_shape] at h
    rcases hroi : index_to_roi shape (.tuple items) with e | ⟨bs, sh⟩ <;>
      rw [hroi] at h <;> dsimp only at h
    · exact Except.noConfusion h
    · have hnoell : IndexItem.ellipsis ∉ items := by
        intro hmem
        have hfalse := (List.all_eq_true.mp hall) _ hmem
        simp [isNumberItem] at hfalse
      have h1 : ¬ ((items.filter (fun it => it ≠ IndexItem.ellipsis)).length
          > shape.length) := by
        rw [filter_ne_ellipsis _ hnoell, hlen]
        omega
      have h2 : ¬ (items.length < shape.length ∧ IndexItem.ellipsis ∉ items) := by
        intro hc
        rw [hlen] at hc
        exact absurd hc.1 (lt_irrefl _)
      rw [index_to_roi_tuple_reduce shape items h1 h2] at hroi
      rcases hrl : resolve_loop shape shape.length items.length items [] false
          with e | ss <;> rw [hrl] at hroi <;> dsimp only at hroi
      · exact Except.noConfusion hroi
      · by_cases hemp : ss.isEmpty
        · rw [if_pos hemp] at hroi
          exact Except.noConfusion hroi
        · rw [if_neg hemp] at hroi
          simp only [Except.ok.injEq, Prod.mk.injEq] at hroi
          obtain ⟨hbs, hsh⟩ := hroi
          subst hsh
          have hones := resolve_scalars_snd shape shape.length items.length
            items [] false ss hall hrl
          have hnot : (0 : Int) ∉ ss.map Prod.snd := by
            intro hmem
            rcases List.mem_map.mp hmem with ⟨x, hxss, hx2⟩
            rcases hones x hxss with h0 | h1
            · exact List.not_mem_nil _ h0
            · rw [h1] at hx2
              exact absurd hx2 (by norm_num)
          have hcont : (ss.map Prod.snd).contains 0 = false := by simpa using hnot
          rw [hcont] at h
          simp only [Bool.false_eq_true, if_false] at h
          rw [if_pos ⟨hlen, hall⟩] at h
          cases h
          rfl
  · intro shape items bs sh hroi hnot
    simp only [getitem_result_shape, hroi]
    by_cases hcont : (sh.contains 0) = true
    · rw [if_pos hcont]
    · rw [if_neg hcont, if_neg hnot]
  · intro shape it bs sh hroi
    simp only [getitem_result_shape, hroi]
    by_cases hcont : (sh.contains 0) = true
    · rw [if_pos hcont]
    · rw [if_neg hcont]

/-- Witness for `c9_squeeze_amended`: on the dataset of shape `(10, 20)`,
the all-scalar tuple `(5, 3)` squeezes to the single element, the mixed
tuple `(5, :)` returns the full `(1, 20)` block, and a bare scalar on a
one-dimensional dataset returns the unsqueezed `(1,)` block. -/
theorem c9_squeeze_amended_witness :
    ([(1 : Int)] : List Int) = [1]
    ∧ getitem_result_shape [10, 20] (.tuple [.scalar 5, .scalar 3]) = .ok []
    ∧ getitem_result_shape [10, 20]
        (.tuple [.scalar 5, .slice none none none]) = .ok [1, 20]
    ∧ getitem_result_shape [10] (.single (.scalar 5)) = .ok [1] := by
  refine ⟨rfl, ?_, ?_, ?_⟩
  · have := c9_squeeze_amended.1 [10, 20] [.scalar 5, .scalar 3] []
      (by decide) (by decide) (by decide)
    decide
  · exact c9_squeeze_amended.2.1 [10, 20] [.scalar 5, .slice none none none]
      [some 5, some 0] [1, 20] (by decide) (by decide)
  · exact c9_squeeze_amended.2.2 [10] (.scalar 5) [some 5] [1] (by decide)

/-- Python `int()` is the identity on integer-valued numerics. -/
theorem int_trunc_intCast (z : Int) : int_trunc (z : ℚ) = z := by
  unfold int_trunc
  split_ifs
  · exact Int.floor_intCast z
  · exact Int.ceil_intCast z

/-- A bare non-`other` index resolves exactly like the singleton tuple. -/
theorem index_to_roi_single_eq_tuple (shape : List Int) (it : IndexItem)
    (h : it ≠ IndexItem.other) :
    index_to_roi shape (.single it) = index_to_roi shape (.tuple [it]) := by
  cases it with
  | scalar q => rfl
  | slice st sp stp => rfl
  | ellipsis => rfl
  | other => exact absurd rfl h

/-- Closed form of bare-scalar resolution: the scalar is truncated, checked
against dimension 0, and the remaining dimensions are filled full-range by
the implicit ellipsis. -/
theorem index_to_roi_single_scalar (shape : List Int) (q : ℚ) :
    index_to_roi shape (.single (.scalar q)) =
      if shape.length = 0 then .error (.typeError "Argument sequence too long")
      else
        match int_to_begin_shape (int_trunc q) (shape.getD 0 0) with
        | .error e => .error e
        | .ok (b, s) =>
          .ok (((some b, s) :: fullEntries shape 1 (shape.length - 1)).map Prod.fst,
               ((some b, s) :: fullEntries shape 1 (shape.length - 1)).map Prod.snd) := by
  have hfilter : [IndexItem.scalar q].filter (fun it => it ≠ IndexItem.ellipsis)
      = [IndexItem.scalar q] := rfl
  rcases shape with _ | ⟨s0, srest⟩
  · rfl
  · rw [index_to_roi_single_eq_tuple _ _ (by simp)]
    rw [if_neg (by simp)]
    rcases srest with _ | ⟨s1, srest2⟩
    · have h1 : ¬ (([IndexItem.scalar q].filter
          (fun it => it ≠ IndexItem.ellipsis)).length > ([s0] : List Int).length) := by
        rw [hfilter]; simp
      have h2 : ¬ (([IndexItem.scalar q] : List IndexItem).length
          < ([s0] : List Int).length ∧ IndexItem.ellipsis ∉ [IndexItem.scalar q]) := by
        simp
      rw [index_to_roi_tuple_reduce _ _ h1 h2]
      simp only [resolve_loop, List.length_nil]
      rcases hi : int_to_begin_shape (int_trunc q) (([s0] : List Int).getD 0 0)
          with e | ⟨b, s⟩
      · rfl
      · simp [resolve_loop, fullEntries]
    · have h1 : ¬ (([IndexItem.scalar q].filter
          (fun it => it ≠ IndexItem.ellipsis)).length
          > (s0 :: s1 :: srest2 : List Int).length) := by
        rw [hfilter]; simp
      have h2 : ([IndexItem.scalar q] : List IndexItem).length
          < (s0 :: s1 :: srest2 : List Int).length
          ∧ IndexItem.ellipsis ∉ [IndexItem.scalar q] := by
        refine ⟨by simp, by simp⟩
      rw [index_to_roi_tuple_append _ _ h1 h2]
      simp only [List.cons_append, List.nil_append, resolve_loop, List.length_nil]
      rcases hi : int_to_begin_shape (int_trunc q)
          ((s0 :: s1 :: srest2 : List Int).getD 0 0) with e | ⟨b, s⟩
      · rfl
      · dsimp only
        rw [if_neg Bool.false_ne_true]
        rw [ellipsis_fill_spec _ _ _ _ _ _ rfl]
        simp only [resolve_loop, List.nil_append]
        simp [fullEntries, List.isEmpty]

/-- Claim C10: a numeric (possibly non-integer) scalar entry is accepted:
it resolves exactly as its `int()` truncation toward zero does, and a bare
numeric index never produces the invalid-index-type `TypeError`; that
error is reserved for non-numeric, non-slice, non-ellipsis entries. -/
theorem c10_numeric_truncation (shape : List Int) (q : ℚ) :
    index_to_roi shape (.single (.scalar q))
      = index_to_roi shape (.single (.scalar ((int_trunc q : Int) : ℚ)))
    ∧ (∀ e, index_to_roi shape (.single (.scalar q)) = .error e →
        e ≠ .typeError type_msg)
    ∧ index_to_roi shape (.single .other) = .error (.typeError type_msg) := by
  refine ⟨?_, ?_, ?_⟩
  · rw [index_to_roi_single_scalar, index_to_roi_single_scalar, int_trunc_intCast]
  · intro e he hmsg
    subst hmsg
    rw [index_to_roi_single_scalar] at he
    split_ifs at he
    · exact absurd he (by decide)
    · rcases hi : int_to_begin_shape (int_trunc q) (shape.getD 0 0)
          with e2 | ⟨b, s⟩
      · rcases int_to_begin_shape_error _ _ _ hi with ⟨m, rfl⟩
        rw [hi] at he
        simp at he
      · rw [hi] at he
        simp at he
  · rfl

/-- Witness for `c10_numeric_truncation`: the float index `2.7` on a
dimension of size 10 resolves as its truncation 2 does, and the
out-of-range error raised for the scalar 100 on shape `[3]` is not the
invalid-index-type error. -/
theorem c10_numeric_truncation_witness :
    index_to_roi [10] (.single (.scalar (27 / 10 : ℚ)))
      = index_to_roi [10] (.single (.scalar ((2 : Int) : ℚ)))
    ∧ PyErr.valueError "Index (100) out of range (0-2)" ≠ .typeError type_msg := by
  constructor
  · have h := (c10_numeric_truncation [10] (27 / 10 : ℚ)).1
    have ht : int_trunc (27 / 10 : ℚ) = 2 := by
      rw [int_trunc, if_pos (by norm_num)]
      norm_num
    rw [ht] at h
    exact h
  · exact (c10_numeric_truncation [3] 100).2.1
      (.valueError "Index (100) out of range (0-2)") (by decide)

end Z5
